import Mathlib

/-!
Shallow embedding of the upload-to-media pipeline of the BeliversHub backend.

The embedding follows the TypeScript source:
* data model               — src/db/schema.ts
* request/complete routes  — src/routes/upload.ts
* status route             — src/routes/status.ts
* discard route            — src/routes/discard.ts
* transcode worker         — src/worker/transcodeWorker.ts

Database rows are lists of records, the object store is an association
list from keys to object metadata, and every route handler / worker run is
a pure function from the pre-state (plus the request, the job payload and
an environment describing the outcome of external calls) to a record of
its observable effects: response, post-state, enqueued jobs, object-store
writes, temporary-directory lifecycle and the sequence of status values
written to the session row.
-/

namespace BHub

/-! Data model, following src/db/schema.ts. -/

structure UploadSession where
  id : Nat
  user_id : Nat
  upload_id : String
  file_key : String
  file_size : Nat
  mime_type : String
  status : String
deriving DecidableEq

structure Media where
  id : Nat
  post_id : Option Nat
  upload_session_id : Nat
  type : String
  duration_sec : Nat
  width : Nat
  height : Nat
deriving DecidableEq

structure MediaVariant where
  id : Nat
  media_id : Nat
  quality : String
  url : String
  size_bytes : Nat
deriving DecidableEq

structure Thumbnail where
  id : Nat
  media_id : Nat
  url : String
  is_selected : Bool
deriving DecidableEq

/-- The relational catalog: the four tables the pipeline touches. -/
structure Catalog where
  sessions : List UploadSession
  medias : List Media
  variants : List MediaVariant
  thumbs : List Thumbnail
deriving DecidableEq

/-- Metadata of one stored object (what a HeadObject call reports). -/
structure ObjMeta where
  content_length : Nat
  content_type : String
deriving DecidableEq

/-- The object store: an association list from keys to object metadata. -/
abbrev Store := List (String × ObjMeta)

/-- headObject (src/s3Client.ts): look the key up; `none` models the thrown
NotFound error. -/
def headOb (store : Store) (key : String) : Option ObjMeta :=
  (store.find? (fun e => e.1 == key)).map (fun e => e.2)

/-- ListObjectsV2 with a Prefix argument: every stored key that starts with
the given string (src/routes/discard.ts, lines 249-257). -/
def listKeysWithStart (store : Store) (pre : String) : List String :=
  (store.map (fun e => e.1)).filter (fun k => k.startsWith pre)

/-- A transcode job payload as enqueued by the complete-video-upload handler
(src/routes/upload.ts, lines 135-141). -/
structure Job where
  uploadSessionId : Nat
  uploadId : String
  fileKey : String
  userId : Nat
deriving DecidableEq

/-- An HTTP-level response: res.json on success, res.status(code).json on
error. -/
inductive Response where
  | ok (msg : String) : Response
  | err (code : Nat) (msg : String) : Response
deriving DecidableEq

/-! Upload session routes, following src/routes/upload.ts. -/

/-- The allowed list in the request-video-upload handler (line 49). -/
def ALLOWED_TYPES : List String :=
  ["video/mp4", "video/quicktime", "video/webm", "video/ogg"]

/-- MAX_SIZE, 1 GB (src/routes/upload.ts line 54). -/
def MAX_SIZE : Nat := 1024 * 1024 * 1024

/-- Fresh serial primary key for upload_sessions. -/
def freshSessionId (cat : Catalog) : Nat :=
  (cat.sessions.map (fun s => s.id)).foldr max 0 + 1

/-- The file key built at src/routes/upload.ts line 59. -/
def rawFileKey (userId : Nat) (uploadId filename : String) : String :=
  "uploads/" ++ toString userId ++ "/" ++ uploadId ++ "/" ++ uploadId ++ "-" ++ filename

structure RequestOut where
  response : Response
  catalog : Catalog
deriving DecidableEq

/-- request-video-upload handler (src/routes/upload.ts lines 42-91).
JS truthiness of the three body fields: a missing or empty filename or
contentType and a missing or zero fileSize all fail the `!field` check.
The fresh uploadId (randomUUID) is passed in as a parameter. -/
def requestUpload (userId : Nat) (filename contentType : String) (fileSize : Nat)
    (uploadId : String) (cat : Catalog) : RequestOut :=
  if filename = "" || contentType = "" || fileSize = 0 then
    ⟨Response.err 400 "missing_params", cat⟩
  else if !(ALLOWED_TYPES.contains contentType) then
    ⟨Response.err 400 "invalid_content_type", cat⟩
  else if MAX_SIZE < fileSize then
    ⟨Response.err 400 "file_too_large", cat⟩
  else
    let row : UploadSession :=
      ⟨freshSessionId cat, userId, uploadId, rawFileKey userId uploadId filename,
        fileSize, contentType, "initiated"⟩
    ⟨Response.ok "url_issued", { cat with sessions := cat.sessions ++ [row] }⟩

/-- Update the status of every session whose upload_id matches
(src/routes/upload.ts lines 130-133 and 144-148). -/
def setStatusByUploadId (cat : Catalog) (uploadId newStatus : String) : Catalog :=
  let f := fun (s : UploadSession) =>
    if s.upload_id = uploadId then { s with status := newStatus } else s
  { cat with sessions := cat.sessions.map f }

structure CompleteOut where
  response : Response
  catalog : Catalog
  enqueued : List Job
  statusWrites : List String
deriving DecidableEq

/-- complete-video-upload handler (src/routes/upload.ts lines 99-155).
The handler heads the fileKey taken from the request body, looks at nothing
but whether the call succeeded (the `head` binding is unused), then writes
status uploaded, enqueues the job, and writes status processing — with no
check of the current status of the session. -/
def completeUpload (userId : Nat) (uploadId fileKey : String) (cat : Catalog)
    (store : Store) : CompleteOut :=
  if uploadId = "" || fileKey = "" then
    ⟨Response.err 400 "missing_params", cat, [], []⟩
  else
    match cat.sessions.find? (fun s => s.upload_id = uploadId) with
    | none => ⟨Response.err 404 "upload_not_found", cat, [], []⟩
    | some found =>
      if found.user_id ≠ userId then
        ⟨Response.err 403 "forbidden", cat, [], []⟩
      else
        match headOb store fileKey with
        | none => ⟨Response.err 400 "object_not_found_in_storage", cat, [], []⟩
        | some _ =>
          let cat1 := setStatusByUploadId cat uploadId "uploaded"
          let job : Job := ⟨found.id, uploadId, fileKey, userId⟩
          let cat2 := setStatusByUploadId cat1 uploadId "processing"
          ⟨Response.ok "enqueued", cat2, [job], ["uploaded", "processing"]⟩

/-! Transcode worker, following src/worker/transcodeWorker.ts. -/

/-- One ladder entry of the static VARIANTS table (lines 43-48). -/
structure VariantSpec where
  name : String
  height : Nat
  bitrate : String
deriving DecidableEq

/-- The static rendition ladder (src/worker/transcodeWorker.ts lines 43-48). -/
def VARIANTS : List VariantSpec :=
  [⟨"1080p", 1080, "4500k"⟩, ⟨"720p", 720, "2500k"⟩,
   ⟨"480p", 480, "900k"⟩, ⟨"360p", 360, "400k"⟩]

/-- JS coercion `height || 10000` (line 181): zero is falsy, so an unknown
(zero) height is replaced by the 10000 default; any positive height is kept. -/
def jsOrDefault (n d : Nat) : Nat := if n = 0 then d else n

/-- Variant selection (line 181): VARIANTS.filter(v => v.height <= (height || 10000)). -/
def selectVariants (height : Nat) : List VariantSpec :=
  VARIANTS.filter (fun v => v.height ≤ jsOrDefault height 10000)

/-- thumbCount (line 167). -/
def thumbCount : Nat := 3

/-- Thumbnail spacing (line 168): Math.max(1, Math.floor(durationSec / (thumbCount + 1))).
Nat division is JS Math.floor on these non-negative values. -/
def thumbSpacing (d : Nat) : Nat := max 1 (d / (thumbCount + 1))

/-- Thumbnail timestamp for index i (line 170): Math.min(durationSec - 1, i * spacing),
computed over the integers since durationSec - 1 is -1 when durationSec = 0. -/
def thumbTime (d i : Nat) : Int := min ((d : Int) - 1) ((i : Int) * (thumbSpacing d : Int))

/-- The three thumbnail timestamps, for i = 1..thumbCount (lines 169-175). -/
def thumbTimes (d : Nat) : List Int :=
  (List.range thumbCount).map (fun j => thumbTime d (j + 1))

/-- Probe result used by the worker (lines 146-153): durationSec is
Math.round of the container duration (0 when absent), width/height come
from the first video stream (0 when absent). -/
structure ProbeData where
  duration : Nat
  width : Nat
  height : Nat
deriving DecidableEq

/-- Outcomes of the external calls one worker run performs. getObjectOk is
the R2 GetObject call (before the temp dir exists); streamOk is the stream
pipeline writing the raw bytes into the temp file (after mkdtemp); probe is
the ffprobe result, none meaning ffprobe threw; the remaining flags are the
ffmpeg invocations, the R2 uploads and the catalog inserts. outSize models
the on-disk size reported for each encoded file. maxDuration is the
MAX_VIDEO_DURATION_SEC setting (line 156, default 3600). -/
structure WorkerEnv where
  getObjectOk : Bool
  streamOk : Bool
  probe : Option ProbeData
  thumbsOk : Bool
  encodeOk : Bool
  hlsOk : Bool
  putOk : Bool
  insertOk : Bool
  maxDuration : Nat
  outSize : Nat
deriving DecidableEq

/-- Job payload as read by the worker (line 110). -/
structure JobData where
  uploadSessionId : Nat
  fileKey : String
  userId : Nat
deriving DecidableEq

/-- Observable effects of one worker run. outcome is true when the job
handler returned normally (acknowledged), false when it threw. putKeys are
the object-store keys written. tmpCreated / tmpRemoved trace the temporary
workspace directories made by mkdtemp and removed by fs.rm. statusWrites is
the ordered list of status values the run wrote to the session row. -/
structure WorkerOut where
  outcome : Bool
  catalog : Catalog
  putKeys : List String
  tmpCreated : List String
  tmpRemoved : List String
  statusWrites : List String
deriving DecidableEq

/-- Directories created but never removed by a run. -/
def WorkerOut.leakedDirs (o : WorkerOut) : List String :=
  o.tmpCreated.filter (fun d => !(o.tmpRemoved.contains d))

/-- JS property access session.status at line 122: the select() call returns
an Array of rows and the worker never indexes into it, so the status field
is read off the Array object itself, which has no such property — the read
yields undefined (none here) regardless of the rows inside. -/
def jsArrayStatusField (rows : List UploadSession) : Option String := none

/-- JS truthiness of the Array value at line 119 (if (!session) ...): every
Array object is truthy, even an empty one, so the branch is never taken. -/
def jsArrayTruthy (rows : List UploadSession) : Bool := true

/-- Name of the scoped temp directory mkdtemp creates for a job (line 99). -/
def tmpDirFor (j : JobData) : String := "tmp/upload-" ++ toString j.uploadSessionId

/-- Update the status of every session whose id matches (worker lines
128-131, 383-386, 404-407). -/
def setStatusById (cat : Catalog) (sid : Nat) (newStatus : String) : Catalog :=
  let f := fun (s : UploadSession) =>
    if s.id = sid then { s with status := newStatus } else s
  { cat with sessions := cat.sessions.map f }

/-- Destination key of one mp4 variant (line 216). -/
def variantKey (userId sid : Nat) (name : String) : String :=
  "processed/" ++ toString userId ++ "/" ++ toString sid ++ "/variants/video_" ++ name ++ ".mp4"

/-- Destination key of one thumbnail (line 174). -/
def thumbKey (userId sid i : Nat) : String :=
  "processed/" ++ toString userId ++ "/" ++ toString sid ++ "/thumbnails/thumb_" ++ toString i ++ ".jpg"

/-- Key prefix of the HLS tree of a session (discard route line 246 builds
the same string). -/
def hlsKeyStart (userId sid : Nat) : String :=
  "processed/" ++ toString userId ++ "/" ++ toString sid ++ "/hls/"

/-- Destination key of one per-rendition HLS playlist (line 294). The
segment files ffmpeg drops next to it are uploaded from the same directory
walk and live under the same hlsKeyStart prefix; they are abstracted into
this entry. -/
def hlsPlaylistKey (userId sid : Nat) (name : String) : String :=
  hlsKeyStart userId sid ++ name ++ "/index.m3u8"

/-- Destination key of the master playlist (line 345). -/
def masterKey (userId sid : Nat) : String := hlsKeyStart userId sid ++ "master.m3u8"

/-- Fresh serial primary key for media. -/
def freshMediaId (cat : Catalog) : Nat := (cat.medias.map (fun m => m.id)).foldr max 0 + 1

/-- Fresh serial primary key base for media_variants. -/
def freshVariantId (cat : Catalog) : Nat := (cat.variants.map (fun v => v.id)).foldr max 0 + 1

/-- Fresh serial primary key base for thumbnails. -/
def freshThumbId (cat : Catalog) : Nat := (cat.thumbs.map (fun t => t.id)).foldr max 0 + 1

/-- Failure exit of the worker (lines 399-420): the catch block sets the
session to failed — guarded by if (session && uploadSessionId), where the
rows array is always truthy but a zero uploadSessionId is falsy — then
removes the temp dir only when the outer tmpDir binding is non-empty, and
rethrows. created/removed describe the temp-dir state at the throw point. -/
def workerFail (j : JobData) (cat : Catalog) (writes : List String)
    (created removed : List String) (put : List String) : WorkerOut :=
  let cat2 := if j.uploadSessionId = 0 then cat else setStatusById cat j.uploadSessionId "failed"
  let writes2 := if j.uploadSessionId = 0 then writes else writes ++ ["failed"]
  ⟨false, cat2, put, created, removed, writes2⟩

/-- One worker run (src/worker/transcodeWorker.ts lines 106-423), with the
outcomes of the external calls supplied by env. PUBLIC_BASE is taken as
empty, so uploadFileToR2 returns the destination key itself as the url
recorded in the catalog (lines 60-61). A failing R2 upload or catalog
insert aborts the run before any of the keys or rows modelled here are
recorded; partially published artifacts of a failing batch are not
modelled. -/
def workerRun (env : WorkerEnv) (j : JobData) (cat : Catalog) : WorkerOut :=
  let rows := cat.sessions.filter (fun s => s.id = j.uploadSessionId)
  if !jsArrayTruthy rows then
    ⟨false, cat, [], [], [], []⟩
  else if jsArrayStatusField rows = some "done" then
    ⟨true, cat, [], [], [], []⟩
  else
    let cat0 := setStatusById cat j.uploadSessionId "processing"
    let writes := ["processing"]
    if !env.getObjectOk then
      workerFail j cat0 writes [] [] []
    else
      let dir := tmpDirFor j
      if !env.streamOk then
        workerFail j cat0 writes [dir] [] []
      else
        match env.probe with
        | none => workerFail j cat0 writes [dir] [dir] []
        | some p =>
          if env.maxDuration < p.duration then
            workerFail j cat0 writes [dir] [dir] []
          else if !env.thumbsOk then
            workerFail j cat0 writes [dir] [dir] []
          else
            let sel := selectVariants p.height
            if !env.encodeOk then
              workerFail j cat0 writes [dir] [dir] []
            else if !env.hlsOk then
              workerFail j cat0 writes [dir] [dir] []
            else if !env.putOk then
              workerFail j cat0 writes [dir] [dir] []
            else if !env.insertOk then
              workerFail j cat0 writes [dir] [dir] []
            else
              let putKeys :=
                sel.map (fun v => variantKey j.userId j.uploadSessionId v.name)
                ++ (List.range thumbCount).map (fun i => thumbKey j.userId j.uploadSessionId (i + 1))
                ++ sel.map (fun v => hlsPlaylistKey j.userId j.uploadSessionId v.name)
                ++ [masterKey j.userId j.uploadSessionId]
              let mid := freshMediaId cat0
              let mediaRow : Media :=
                ⟨mid, none, j.uploadSessionId, "video", p.duration, p.width, p.height⟩
              let vbase := freshVariantId cat0
              let variantRows := sel.enum.map (fun e =>
                (⟨vbase + e.1, mid, e.2.name,
                  variantKey j.userId j.uploadSessionId e.2.name, env.outSize⟩ : MediaVariant))
              let tbase := freshThumbId cat0
              let thumbRows := (List.range thumbCount).map (fun i =>
                (⟨tbase + i, mid, thumbKey j.userId j.uploadSessionId (i + 1), false⟩ : Thumbnail))
              let cat1 : Catalog :=
                ⟨cat0.sessions, cat0.medias ++ [mediaRow],
                  cat0.variants ++ variantRows, cat0.thumbs ++ thumbRows⟩
              let cat2 := setStatusById cat1 j.uploadSessionId "done"
              ⟨true, cat2, putKeys, [dir], [dir], writes ++ ["done"]⟩

/-! Discard route, following src/routes/discard.ts. -/

structure DiscardOut where
  response : Response
  submittedKeys : List String
  catalog : Catalog
deriving DecidableEq

/-- discard-upload handler (src/routes/discard.ts lines 190-304). The key
set starts with the raw file_key; when a media row exists it is extended
with every variant url, every thumbnail url and every stored key under the
session's hls/ prefix. The deletion loop then submits one DeleteObject per
key, skipping JS-falsy (empty) keys; submittedKeys is that submitted list
(deletion failures are logged and skipped, so every key is submitted
independently of the others). Catalog rows are then removed: thumbnails,
variants, media, and finally the session row. -/
def discardUpload (userId : Nat) (uploadId : String) (cat : Catalog)
    (store : Store) : DiscardOut :=
  if uploadId = "" then
    ⟨Response.err 400 "missing_uploadId", [], cat⟩
  else
    match cat.sessions.find? (fun s => s.upload_id = uploadId) with
    | none => ⟨Response.err 404 "not_found", [], cat⟩
    | some session =>
      if session.user_id ≠ userId then
        ⟨Response.err 403 "forbidden", [], cat⟩
      else
        let media := cat.medias.find? (fun m => m.upload_session_id = session.id)
        let mediaKeys :=
          match media with
          | none => []
          | some m =>
            (cat.variants.filter (fun v => v.media_id = m.id)).map (fun v => v.url)
            ++ (cat.thumbs.filter (fun t => t.media_id = m.id)).map (fun t => t.url)
            ++ listKeysWithStart store (hlsKeyStart userId session.id)
        let keysToDelete := session.file_key :: mediaKeys
        let submitted := keysToDelete.filter (fun k => !(k == ""))
        let cat2 :=
          match media with
          | none => cat
          | some m =>
            ⟨cat.sessions, cat.medias.filter (fun x => !(x.id == m.id)),
              cat.variants.filter (fun v => !(v.media_id == m.id)),
              cat.thumbs.filter (fun t => !(t.media_id == m.id))⟩
        let cat3 := { cat2 with sessions := cat2.sessions.filter (fun s => !(s.id == session.id)) }
        ⟨Response.ok "ok", submitted, cat3⟩

/-! Status route, following src/routes/status.ts. -/

/-- Media part of the upload-status response (lines 377-393). -/
structure MediaPayload where
  id : Nat
  duration_sec : Nat
  width : Nat
  height : Nat
  variants : List MediaVariant
  thumbs : List Thumbnail
deriving DecidableEq

/-- Response of the upload-status route: an error, or a status string with
an optional media object. -/
inductive StatusOut where
  | err (code : Nat) (msg : String) : StatusOut
  | ok (status : String) (media : Option MediaPayload) : StatusOut
deriving DecidableEq

/-- upload-status handler (src/routes/status.ts lines 325-402). When the
session status is done but no media row exists, the handler returns the
base response holding only the status (lines 358-362). -/
def getStatus (userId : Nat) (uploadId : String) (cat : Catalog) : StatusOut :=
  if uploadId = "" then
    StatusOut.err 400 "missing_uploadId"
  else
    match cat.sessions.find? (fun s => s.upload_id = uploadId) with
    | none => StatusOut.err 404 "upload_not_found"
    | some session =>
      if session.user_id ≠ userId then
        StatusOut.err 403 "forbidden"
      else if session.status = "done" then
        match cat.medias.find? (fun m => m.upload_session_id = session.id) with
        | none => StatusOut.ok session.status none
        | some m =>
          let vs := cat.variants.filter (fun v => v.media_id = m.id)
          let ts := cat.thumbs.filter (fun t => t.media_id = m.id)
          StatusOut.ok session.status (some ⟨m.id, m.duration_sec, m.width, m.height, vs, ts⟩)
      else
        StatusOut.ok session.status none

/-! Specification-side definitions, written from the spec text to be compared
against the code-side definitions above. -/

/-- Spec formula for the i-th thumbnail timestamp: min(duration-1,
i * floor(duration/(count+1))) — the spec text has no inner clamp to 1,
unlike line 168 of the worker. For comparison with thumbTime. -/
def thumbTimeSpec (d i : Nat) : Int :=
  min ((d : Int) - 1) ((i : Int) * ((d / (thumbCount + 1) : Nat) : Int))

/-- Spec-side variant selection: every ladder entry whose target height does
not exceed the source height, all entries when the height is unknown (zero).
For comparison with selectVariants. -/
def selectVariantsSpec (n : Nat) : List VariantSpec :=
  if n = 0 then VARIANTS else VARIANTS.filter (fun v => v.height ≤ n)

/-- Spec status machine: the forward transitions initiated → uploaded →
processing → {done | failed}. For comparison with the transitions the
handlers actually perform. -/
def specForwardStep (a b : String) : Bool :=
  (a == "initiated" && b == "uploaded") || (a == "uploaded" && b == "processing")
  || (a == "processing" && b == "done") || (a == "processing" && b == "failed")

/-! Concrete fixtures used by the closed-form results below. -/

/-- A session that has already completed the pipeline. -/
def sessionDone : UploadSession :=
  ⟨1, 7, "u-1", "uploads/7/u-1/u-1-a.mp4", 100, "video/mp4", "done"⟩

def catalogDone : Catalog := ⟨[sessionDone], [], [], []⟩

/-- A session owned by user 8, used to exercise the ownership checks. -/
def sessionOther : UploadSession :=
  ⟨2, 8, "u-2", "uploads/8/u-2/u-2-b.mp4", 100, "video/mp4", "uploaded"⟩

def catalogOther : Catalog := ⟨[sessionOther], [], [], []⟩

/-- The job payload the queue would redeliver for sessionDone. -/
def jobA : JobData := ⟨1, "uploads/7/u-1/u-1-a.mp4", 7⟩

/-- An environment in which every external call succeeds. -/
def envAllOk : WorkerEnv := ⟨true, true, some ⟨10, 1080, 1920⟩, true, true, true, true, true, 3600, 500⟩

/-- An environment in which the download stream fails after mkdtemp. -/
def envStreamFail : WorkerEnv := ⟨true, false, some ⟨10, 1080, 1920⟩, true, true, true, true, true, 3600, 500⟩

/-- A store holding the raw object of sessionDone. -/
def storeA : Store := [("uploads/7/u-1/u-1-a.mp4", ⟨100, "video/mp4"⟩)]

def mediaA : Media := ⟨11, none, 1, "video", 10, 1080, 1920⟩

def variantA : MediaVariant := ⟨21, 11, "720p", "processed/7/1/variants/video_720p.mp4", 500⟩

def thumbA : Thumbnail := ⟨31, 11, "processed/7/1/thumbnails/thumb_1.jpg", false⟩

/-- A catalog in which sessionDone finished and committed its rows. -/
def catalogFull : Catalog := ⟨[sessionDone], [mediaA], [variantA], [thumbA]⟩

/-- A store holding the HLS tree of sessionDone plus an unrelated key. -/
def storeHls : Store :=
  [("processed/7/1/hls/720p/index.m3u8", ⟨1, "application/vnd.apple.mpegurl"⟩),
   ("processed/7/1/hls/720p/segment_000.ts", ⟨1, "video/MP2T"⟩),
   ("other/key", ⟨1, "bin"⟩)]

/-- Two stores holding the same key with different object metadata. -/
def storeMetaA : Store := [("k.mp4", ⟨100, "video/mp4"⟩)]

def storeMetaB : Store := [("k.mp4", ⟨999, "text/plain"⟩)]

/-! Results. -/

set_option maxHeartbeats 1000000

/-- Claim C1: the claim says a transcode job delivered for a session already
at done is acknowledged with no side effects. The code contradicts its own
idempotency comment: db.select() returns an Array of rows and line 122 reads
session.status off the Array itself (undefined), so the guard never fires
and a redelivered job re-runs the whole pipeline on a done session — it
rewrites the status (processing, then done), inserts a fresh Media row and
writes the full artifact key set to the object store. -/
theorem worker_rerun_on_done_session_has_side_effects :
    sessionDone.status = "done"
    ∧ (workerRun envAllOk jobA catalogDone).statusWrites = ["processing", "done"]
    ∧ (workerRun envAllOk jobA catalogDone).catalog.medias.length = catalogDone.medias.length + 1
    ∧ (workerRun envAllOk jobA catalogDone).putKeys.length = 12
    ∧ jsArrayStatusField (catalogDone.sessions.filter (fun s => s.id = jobA.uploadSessionId)) = none :=
  ⟨rfl, by decide, by decide, by decide, rfl⟩

/-- Claim C2, counterexample: CompleteUpload invoked on a session already at
done performs no status check and rewrites the session to uploaded and then
processing — a backward transition outside the spec status machine. -/
theorem completeUpload_moves_done_session_backward :
    sessionDone.status = "done"
    ∧ (completeUpload 7 "u-1" "uploads/7/u-1/u-1-a.mp4" catalogDone storeA).statusWrites
        = ["uploaded", "processing"]
    ∧ specForwardStep "done" "uploaded" = false
    ∧ ((completeUpload 7 "u-1" "uploads/7/u-1/u-1-a.mp4" catalogDone storeA).catalog.sessions.map
        (fun s => s.status)) = ["processing"]
    ∧ specForwardStep "done" "processing" = false :=
  ⟨rfl, by decide, by decide, by decide, by decide⟩

/-- Claim C2, amended: transitions are not monotonic (see the counterexample),
but the status vocabulary is closed — RequestUpload only ever creates rows at
initiated, CompleteUpload only ever writes uploaded then processing, and a
worker run only ever writes processing, done or failed; every status written
by any operation lies inside the five-value enum. -/
theorem status_writes_stay_in_enum
    (u1 : Nat) (fn ct : String) (fs : Nat) (uid : String) (c1 : Catalog)
    (u2 : Nat) (tok fk : String) (c2 : Catalog) (st : Store)
    (env : WorkerEnv) (j : JobData) (c3 : Catalog) :
    ((requestUpload u1 fn ct fs uid c1).catalog.sessions.all
      (fun r => decide (r ∈ c1.sessions) || r.status == "initiated")) = true
    ∧ ((completeUpload u2 tok fk c2 st).statusWrites.all
      (fun s => s == "uploaded" || s == "processing")) = true
    ∧ ((workerRun env j c3).statusWrites.all
      (fun s => s == "processing" || s == "done" || s == "failed")) = true := by
  refine ⟨?_, ?_, ?_⟩
  · unfold requestUpload
    split_ifs <;> simp_all [List.all_eq_true]
  · unfold completeUpload
    split_ifs with h1
    · rfl
    · cases hh : c2.sessions.find? (fun s => s.upload_id = tok) <;> simp only [hh]
      · rfl
      · split_ifs
        · rfl
        · cases hs : headOb st fk <;> simp [hs]
  · rcases env with ⟨go, stk, pr, th, en, hl, pu, ins, md, osz⟩
    cases go <;> cases stk <;> cases pr <;>
      simp only [workerRun, workerFail, jsArrayTruthy, jsArrayStatusField,
        Bool.not_true, Bool.not_false, ite_false, ite_true, reduceCtorEq] <;>
      (try split_ifs) <;> simp_all

/-- Claim C3, counterexample: when GetObject succeeds but the download stream
fails after mkdtemp, the helper throws before returning, the outer tmpDir
binding is still empty, and the catch-block cleanup is skipped — the created
workspace directory is never removed. -/
theorem tmp_dir_leaks_when_download_stream_fails :
    (workerRun envStreamFail jobA catalogDone).tmpCreated = ["tmp/upload-1"]
    ∧ (workerRun envStreamFail jobA catalogDone).tmpRemoved = []
    ∧ (workerRun envStreamFail jobA catalogDone).leakedDirs = ["tmp/upload-1"] :=
  ⟨by decide, by decide, by decide⟩

/-- Claim C3, amended: the temporary workspace is removed on every exit path
except one — a failure of the download stream after the directory is created
but before the download helper returns. The leaked-directory set of a run is
exactly the singleton workspace in that case and empty in every other case,
success and all other failures included. -/
theorem tmp_dir_leak_characterization (env : WorkerEnv) (j : JobData) (cat : Catalog) :
    (workerRun env j cat).leakedDirs =
      if env.getObjectOk = true ∧ env.streamOk = false then [tmpDirFor j] else [] := by
  rcases env with ⟨go, st, pr, th, en, hl, pu, ins, md, osz⟩
  cases go <;> cases st <;> cases pr <;>
    simp only [workerRun, workerFail, WorkerOut.leakedDirs, jsArrayTruthy, jsArrayStatusField,
      Bool.not_true, Bool.not_false, if_true, if_false, Bool.false_eq_true, Bool.true_eq_false,
      ite_false, ite_true, reduceCtorEq] <;>
    (try split_ifs) <;>
    simp_all [List.contains]

/-- Claim C4, counterexample: at probed duration 2 the code clamps the
spacing to 1 (Math.max(1, ...) at line 168) and extracts the first thumbnail
at timestamp 1, while the spec formula min(duration-1, i*floor(duration/4))
yields 0 — the claimed formula disagrees with the code for durations below 4. -/
theorem thumb_time_formula_differs_at_duration_two :
    thumbTime 2 1 = 1 ∧ thumbTimeSpec 2 1 = 0 ∧ thumbTime 2 1 ≠ thumbTimeSpec 2 1 := by
  decide

/-- Claim C4, amended: the worker extracts exactly 3 thumbnails at timestamps
min(duration-1, i * max(1, floor(duration/(count+1)))) for i = 1..3 — the
spec formula plus the inner clamp to 1 that the code applies; and for every
duration ≥ 4 each timestamp lies within [0, duration-1] and the three
timestamps are strictly increasing. -/
theorem thumb_times_formula_and_bounds (d : Nat) :
    thumbTimes d = [thumbTime d 1, thumbTime d 2, thumbTime d 3]
    ∧ (∀ i : Nat, thumbTime d i = min ((d : Int) - 1) ((i : Int) * ((max 1 (d / 4) : Nat) : Int)))
    ∧ (4 ≤ d →
        (∀ i : Nat, 1 ≤ i → i ≤ 3 → 0 ≤ thumbTime d i ∧ thumbTime d i ≤ (d : Int) - 1)
        ∧ thumbTime d 1 < thumbTime d 2 ∧ thumbTime d 2 < thumbTime d 3) := by
  refine ⟨rfl, fun i => rfl, fun hd => ?_⟩
  have key : max 1 (d / 4) = d / 4 := by omega
  constructor
  · intro i h1 h3
    interval_cases i <;>
      simp only [thumbTime, thumbSpacing, show thumbCount + 1 = 4 from rfl, key] <;>
      constructor <;> omega
  · constructor <;>
      simp only [thumbTime, thumbSpacing, show thumbCount + 1 = 4 from rfl, key] <;> omega

/-- Witness for the amended C4 theorem at duration 10 (the spec example):
the timestamps are 2, 4, 6 — within bounds and strictly increasing. -/
theorem thumb_times_bounds_witness :
    (0 ≤ thumbTime 10 1 ∧ thumbTime 10 1 ≤ (10 : Int) - 1)
    ∧ thumbTime 10 1 < thumbTime 10 2 ∧ thumbTime 10 2 < thumbTime 10 3 :=
  ⟨((thumb_times_formula_and_bounds 10).2.2 (by decide)).1 1 (by decide) (by decide),
   ((thumb_times_formula_and_bounds 10).2.2 (by decide)).2.1,
   ((thumb_times_formula_and_bounds 10).2.2 (by decide)).2.2⟩

/-- Claim C5: variant selection equals the spec-side selection for every
probed source height — exactly the ladder entries with target height ≤ the
source height when it is positive, and the whole ladder when it is zero
(the JS fallback height || 10000 admits every entry, all of which are
≤ 1080 < 10000). -/
theorem selectVariants_matches_spec (n : Nat) :
    selectVariants n = selectVariantsSpec n := by
  unfold selectVariants selectVariantsSpec jsOrDefault
  by_cases h0 : n = 0
  · subst h0; simp only [if_pos rfl]; decide
  · simp only [if_neg h0]

/-- Claim C6: a DiscardUpload call on an owned, existing session always
submits the raw upload key for deletion, and when a media row exists the
submitted key set also contains every variant locator, every thumbnail
locator and every stored key under the session's hls/ prefix (the deletion
loop only skips JS-falsy, i.e. empty, keys). -/
theorem discard_deletes_raw_and_all_locators
    (userId : Nat) (uploadId : String) (cat : Catalog) (store : Store) (s : UploadSession)
    (hfind : cat.sessions.find? (fun x => x.upload_id = uploadId) = some s)
    (hown : s.user_id = userId)
    (hid : uploadId ≠ "")
    (hraw : s.file_key ≠ "") :
    s.file_key ∈ (discardUpload userId uploadId cat store).submittedKeys
    ∧ ∀ m, cat.medias.find? (fun x => x.upload_session_id = s.id) = some m →
        (∀ v ∈ cat.variants.filter (fun x => x.media_id = m.id),
          v.url ≠ "" → v.url ∈ (discardUpload userId uploadId cat store).submittedKeys)
        ∧ (∀ t ∈ cat.thumbs.filter (fun x => x.media_id = m.id),
          t.url ≠ "" → t.url ∈ (discardUpload userId uploadId cat store).submittedKeys)
        ∧ (∀ k ∈ listKeysWithStart store (hlsKeyStart userId s.id),
          k ≠ "" → k ∈ (discardUpload userId uploadId cat store).submittedKeys) := by
  unfold discardUpload
  simp only [hfind, if_neg hid, hown, ne_eq, not_true_eq_false, Bool.false_eq_true, if_false,
    ite_false, ite_true, reduceIte]
  constructor
  · exact List.mem_filter.2 ⟨List.mem_cons_self _ _, by simp [hraw]⟩
  · intro m hm
    simp only [hm]
    refine ⟨fun v hv hvne => ?_, fun t ht htne => ?_, fun k hk hkne => ?_⟩
    · refine List.mem_filter.2 ⟨?_, by simp [hvne]⟩
      exact List.mem_cons_of_mem _
        (List.mem_append_left _ (List.mem_append_left _ (List.mem_map_of_mem _ hv)))
    · refine List.mem_filter.2 ⟨?_, by simp [htne]⟩
      exact List.mem_cons_of_mem _
        (List.mem_append_left _ (List.mem_append_right _ (List.mem_map_of_mem _ ht)))
    · refine List.mem_filter.2 ⟨?_, by simp [hkne]⟩
      exact List.mem_cons_of_mem _ (List.mem_append_right _ hk)

/-- Witness for the C6 theorem: discarding sessionDone in a catalog holding
its media, variant and thumbnail rows submits the raw upload key. -/
theorem discard_deletes_raw_witness :
    sessionDone.file_key ∈ (discardUpload 7 "u-1" catalogFull storeHls).submittedKeys :=
  (discard_deletes_raw_and_all_locators 7 "u-1" catalogFull storeHls sessionDone
    (by decide) rfl (by decide) (by decide)).1

/-- Claim C7: CompleteUpload on a session found by the given token but owned
by a different user returns Forbidden and leaves the catalog untouched, with
no job enqueued and no status written. -/
theorem completeUpload_forbidden_preserves_state
    (userId : Nat) (uploadId fileKey : String) (cat : Catalog)
    (store : Store) (s : UploadSession)
    (hfind : cat.sessions.find? (fun x => x.upload_id = uploadId) = some s)
    (hid : uploadId ≠ "") (hfk : fileKey ≠ "")
    (hown : s.user_id ≠ userId) :
    completeUpload userId uploadId fileKey cat store
      = ⟨Response.err 403 "forbidden", cat, [], []⟩ := by
  unfold completeUpload
  simp [hid, hfk, hfind, hown]

/-- Witness for the C7 theorem: user 7 completing user 8's session. -/
theorem completeUpload_forbidden_witness :
    completeUpload 7 "u-2" "uploads/8/u-2/u-2-b.mp4" catalogOther storeA
      = ⟨Response.err 403 "forbidden", catalogOther, [], []⟩ :=
  completeUpload_forbidden_preserves_state 7 "u-2" "uploads/8/u-2/u-2-b.mp4" catalogOther storeA
    sessionOther (by decide) (by decide) (by decide) (by decide)

/-- Claim C8: RequestUpload with a disallowed content type or a declared
size above the 1 GB ceiling never inserts a session row and fails with an
error — invalid_content_type or file_too_large when all fields are present
(content type is checked first), missing_params otherwise. -/
theorem requestUpload_rejects_invalid_without_insert
    (userId : Nat) (filename contentType : String)
    (fileSize : Nat) (uploadId : String) (cat : Catalog)
    (h : ALLOWED_TYPES.contains contentType = false ∨ MAX_SIZE < fileSize) :
    (requestUpload userId filename contentType fileSize uploadId cat).catalog = cat
    ∧ (∃ msg, (requestUpload userId filename contentType fileSize uploadId cat).response
        = Response.err 400 msg)
    ∧ (filename ≠ "" → contentType ≠ "" → fileSize ≠ 0 →
        (requestUpload userId filename contentType fileSize uploadId cat).response =
          (if ALLOWED_TYPES.contains contentType then Response.err 400 "file_too_large"
           else Response.err 400 "invalid_content_type")) := by
  unfold requestUpload
  split_ifs with h1 h2 h3 <;> simp_all <;> tauto

/-- Witness for the C8 theorem: a text/plain request is rejected with
invalid_content_type and the catalog is unchanged. -/
theorem requestUpload_rejects_witness :
    (requestUpload 7 "a.mp4" "text/plain" 5 "u-9" catalogDone).catalog = catalogDone
    ∧ (requestUpload 7 "a.mp4" "text/plain" 5 "u-9" catalogDone).response
        = Response.err 400 "invalid_content_type" := by
  have h := requestUpload_rejects_invalid_without_insert 7 "a.mp4" "text/plain" 5 "u-9"
    catalogDone (Or.inl (by decide))
  exact ⟨h.1, (h.2.2 (by decide) (by decide) (by decide)).trans (by decide)⟩

/-- Claim C9: GetStatus on an owned session at done with no media row
returns the bare status (no media object, no error). -/
theorem getStatus_done_without_media_returns_status_only
    (userId : Nat) (uploadId : String) (cat : Catalog) (s : UploadSession)
    (hid : uploadId ≠ "")
    (hfind : cat.sessions.find? (fun x => x.upload_id = uploadId) = some s)
    (hown : s.user_id = userId) (hst : s.status = "done")
    (hnm : cat.medias.find? (fun m => m.upload_session_id = s.id) = none) :
    getStatus userId uploadId cat = StatusOut.ok "done" none := by
  unfold getStatus
  simp [hid, hfind, hown, hst, hnm]

/-- Witness for the C9 theorem: sessionDone in a catalog with no media row. -/
theorem getStatus_done_without_media_witness :
    getStatus 7 "u-1" catalogDone = StatusOut.ok "done" none :=
  getStatus_done_without_media_returns_status_only 7 "u-1" catalogDone sessionDone
    (by decide) (by decide) rfl rfl rfl

/-- Claim C10: CompleteUpload depends on the stored object only through its
existence — two runs against stores that both hold the uploaded key, with
any object sizes and content types, produce identical responses, catalog
states, enqueued jobs and status writes; the session's declared file_size
and mime_type are never compared against the stored object. -/
theorem completeUpload_independent_of_object_metadata
    (userId : Nat) (uploadId fileKey : String) (cat : Catalog)
    (store1 store2 : Store) (m1 m2 : ObjMeta)
    (h1 : headOb store1 fileKey = some m1) (h2 : headOb store2 fileKey = some m2) :
    completeUpload userId uploadId fileKey cat store1
      = completeUpload userId uploadId fileKey cat store2 := by
  unfold completeUpload
  rw [h1, h2]

/-- Witness for the C10 theorem: the same key with size 100 / video-mp4
versus size 999 / text-plain yields identical outcomes. -/
theorem completeUpload_metadata_witness :
    completeUpload 7 "u-1" "k.mp4" catalogDone storeMetaA
      = completeUpload 7 "u-1" "k.mp4" catalogDone storeMetaB :=
  completeUpload_independent_of_object_metadata 7 "u-1" "k.mp4" catalogDone
    storeMetaA storeMetaB ⟨100, "video/mp4"⟩ ⟨999, "text/plain"⟩ rfl rfl

end BHub
